import Mathlib

/-!
Verification of the system-monitor dashboard (app.py).

The development shallowly embeds the query/aggregation core of the dashboard:
the SQLite-backed store accessor (get_system_logs, get_alerts_log,
get_statistics), the view assembly performed by dashboard_page (formatted
table, time-series projections, summary tables), and the short-lived query
cache.  Tables are lists of records, SQL REAL columns are exact rationals,
SQL text comparison is byte-wise lexicographic comparison, and exceptions
are Except values.
-/

/-- One row of the system_log table:
system_log(id INTEGER PK, timestamp TEXT, cpu REAL, memory REAL, disk REAL,
ping_status TEXT, ping_ms REAL). -/
structure LogRecord where
  id : Nat
  timestamp : String
  cpu : ℚ
  memory : ℚ
  disk : ℚ
  ping_status : String
  ping_ms : ℚ
deriving DecidableEq, Repr

/-- One row of the alerts_log table:
alerts_log(id INTEGER PK, timestamp TEXT, alert_type TEXT, message TEXT). -/
structure AlertRecord where
  id : Nat
  timestamp : String
  alert_type : String
  message : String
deriving DecidableEq, Repr

/-- The dictionary returned by get_statistics (app.py lines 184-193). -/
structure StatisticsSnapshot where
  log_count : Nat
  alert_count : Nat
  threshold_violations : Nat
  latest_cpu : ℚ
  latest_memory : ℚ
  latest_disk : ℚ
  latest_ping_status : String
  latest_ping_ms : ℚ
deriving DecidableEq, Repr

/-- Byte-wise lexicographic comparison of character lists; models SQLite's
BINARY text collation (memcmp order), which is what the SQL operators
BETWEEN and = use on TEXT columns. -/
def charListLe : List Char → List Char → Bool
  | [], _ => true
  | _ :: _, [] => false
  | a :: as, b :: bs =>
    if a.toNat < b.toNat then true
    else if b.toNat < a.toNat then false
    else charListLe as bs

/-- SQLite text order on strings (memcmp order; agrees with chronological
order on fixed-width ISO date strings of the form YYYY-MM-DD). -/
def textLe (a b : String) : Bool := charListLe a.data b.data

/-- SQLite DATE() applied to a TEXT timestamp of the form
"YYYY-MM-DD HH:MM:SS": the date part is the first 10 characters. -/
def DATE (ts : String) : String := ⟨ts.data.take 10⟩

/-- Descending sort on id: models the SQL clause ORDER BY id DESC. -/
def sortByIdDesc (l : List LogRecord) : List LogRecord :=
  List.insertionSort (fun a b => b.id ≤ a.id) l

/-- Ascending sort on id: models pandas df.sort_values('id')
(app.py line 322). -/
def sortByIdAsc (l : List LogRecord) : List LogRecord :=
  List.insertionSort (fun a b => a.id ≤ b.id) l

/-- Descending sort on id for the alerts table (ORDER BY id DESC). -/
def sortAlertsByIdDesc (l : List AlertRecord) : List AlertRecord :=
  List.insertionSort (fun a b => b.id ≤ a.id) l

/-- The ping_status condition of get_system_logs (app.py lines 128-130):
the WHERE conjunct ping_status = ? is added only when the argument is
truthy (not None, not the empty string) and not the literal "All". -/
def pingPred (ping_filter : Option String) (r : LogRecord) : Bool :=
  match ping_filter with
  | none => true
  | some s => if s == "" || s == "All" then true else r.ping_status == s

/-- The date condition of get_system_logs (app.py lines 132-135): the WHERE
conjunct DATE(timestamp) BETWEEN ? AND ? over the two %Y-%m-%d formatted
bounds, added only when a date_filter pair is given. -/
def datePred (date_filter : Option (String × String)) (r : LogRecord) : Bool :=
  match date_filter with
  | none => true
  | some (s, e) => textLe s (DATE r.timestamp) && textLe (DATE r.timestamp) e

/-- The cpu condition of get_system_logs (app.py lines 137-139): the WHERE
conjunct cpu >= ?, added only when cpu_threshold is not None. -/
def cpuPred (cpu_threshold : Option ℚ) (r : LogRecord) : Bool :=
  match cpu_threshold with
  | none => true
  | some t => decide (t ≤ r.cpu)

/-- The full WHERE clause of get_system_logs (app.py line 141): the active
conditions joined with AND ("1=1" when none is active). -/
def rowMatches (ping_filter : Option String) (date_filter : Option (String × String))
    (cpu_threshold : Option ℚ) (r : LogRecord) : Bool :=
  pingPred ping_filter r && datePred date_filter r && cpuPred cpu_threshold r

/-- get_system_logs (app.py lines 121-146): SELECT * FROM system_log WHERE
<active conditions> ORDER BY id DESC, over the system_log table. -/
def get_system_logs (ping_filter : Option String) (date_filter : Option (String × String))
    (cpu_threshold : Option ℚ) (db : List LogRecord) : List LogRecord :=
  sortByIdDesc (db.filter (rowMatches ping_filter date_filter cpu_threshold))

/-- get_alerts_log (app.py lines 149-155): SELECT * FROM alerts_log
ORDER BY id DESC LIMIT 50. -/
def get_alerts_log (alerts : List AlertRecord) : List AlertRecord :=
  (sortAlertsByIdDesc alerts).take 50

/-- The threshold-violation predicate of get_statistics (app.py line 179):
WHERE cpu > 80 OR memory > 85 OR disk > 90. -/
def isViolation (r : LogRecord) : Bool :=
  decide (80 < r.cpu) || decide (85 < r.memory) || decide (90 < r.disk)

/-- get_statistics (app.py lines 158-193): full-table counts of both tables,
the violation count, and the fields of the most recent row (ORDER BY id DESC
LIMIT 1), with 0 / "N/A" defaults when system_log is empty. -/
def get_statistics (db : List LogRecord) (alerts : List AlertRecord) : StatisticsSnapshot :=
  let latest := (sortByIdDesc db).head?
  { log_count := db.length
    alert_count := alerts.length
    threshold_violations := (db.filter isViolation).length
    latest_cpu := match latest with | some r => r.cpu | none => 0
    latest_memory := match latest with | some r => r.memory | none => 0
    latest_disk := match latest with | some r => r.disk | none => 0
    latest_ping_status := match latest with | some r => r.ping_status | none => "N/A"
    latest_ping_ms := match latest with | some r => r.ping_ms | none => 0 }

/-- The tenths digit position of a rational, rounding half away from zero:
for a nonnegative value p/q this is floor((20p + q) / (2q)).  Models the
value displayed by the Python format specifier :.1f (all values formatted
by the dashboard are nonnegative decimal quantities, where the two
rounding conventions agree). -/
def roundTenths (x : ℚ) : Int :=
  if 0 ≤ x.num then ((20 * x.num.toNat + x.den) / (2 * x.den) : Nat)
  else -(((20 * (-x.num).toNat + x.den) / (2 * x.den) : Nat) : Int)

/-- One-decimal rendering of a rational: models the Python f-string
piece \x7bx:.1f\x7d. -/
def formatOneDecimal (x : ℚ) : String :=
  let t := roundTenths x
  (if t < 0 then "-" else "")
    ++ toString (t.natAbs / 10) ++ "." ++ toString (t.natAbs % 10)

/-- The hundredths digit position of a rational, rounding half away from
zero; models the value displayed by the Python format specifier :.2f. -/
def roundHundredths (x : ℚ) : Int :=
  if 0 ≤ x.num then ((200 * x.num.toNat + x.den) / (2 * x.den) : Nat)
  else -(((200 * (-x.num).toNat + x.den) / (2 * x.den) : Nat) : Int)

/-- Two-decimal rendering of a rational: models the Python f-string
piece \x7bx:.2f\x7d. -/
def formatTwoDecimal (x : ℚ) : String :=
  let t := roundHundredths x
  (if t < 0 then "-" else "")
    ++ toString (t.natAbs / 100) ++ "."
    ++ (if t.natAbs % 100 < 10 then "0" else "") ++ toString (t.natAbs % 100)

/-- One displayed row of the system-logs table after the per-column
formatting of app.py lines 301-305. -/
structure FormattedRow where
  id : Nat
  timestamp : String
  cpu : String
  memory : String
  disk : String
  ping_status : String
  ping_ms : String
deriving DecidableEq, Repr

/-- The per-row formatting of app.py lines 301-305: cpu, memory and disk
are rendered as one-decimal strings suffixed "%", ping_ms as a one-decimal
string suffixed "ms" when positive and as "N/A" otherwise. -/
def formatRow (r : LogRecord) : FormattedRow :=
  { id := r.id
    timestamp := r.timestamp
    cpu := formatOneDecimal r.cpu ++ "%"
    memory := formatOneDecimal r.memory ++ "%"
    disk := formatOneDecimal r.disk ++ "%"
    ping_status := r.ping_status
    ping_ms := if 0 < r.ping_ms then formatOneDecimal r.ping_ms ++ "ms" else "N/A" }

/-- pandas Series.value_counts over a list of strings: each distinct value
with its number of occurrences, ordered by count descending
(app.py line 391). -/
def value_counts (l : List String) : List (String × Nat) :=
  List.insertionSort (fun a b => b.2 ≤ a.2) (l.dedup.map (fun s => (s, l.count s)))

/-- The percentage cell of the ping-status summary (app.py line 395):
count / len(chart_df) * 100 rendered with :.1f and suffixed "%". -/
def pctString (c total : Nat) : String :=
  formatOneDecimal (mkRat (100 * c) total) ++ "%"

/-- The ping-status summary table of app.py lines 390-397: one row per
distinct ping_status value of the charted sequence, with its count and its
percentage of the sequence length. -/
def ping_summary_of (l : List LogRecord) : List (String × Nat × String) :=
  (value_counts (l.map (fun r => r.ping_status))).map
    (fun p => (p.1, p.2, pctString p.2 l.length))

/-- pandas Series.mean: sum divided by length (only applied to non-empty
sequences by the dashboard). -/
def listMean (l : List ℚ) : ℚ := l.sum / (l.length : ℚ)

/-- pandas Series.max over a non-empty sequence (0 on the unreached empty
case). -/
def listMax : List ℚ → ℚ
  | [] => 0
  | a :: t => t.foldl max a

/-- pandas Series.min over a non-empty sequence (0 on the unreached empty
case). -/
def listMin : List ℚ → ℚ
  | [] => 0
  | a :: t => t.foldl min a

/-- One row of the average-resource-usage summary (app.py lines 369-386). -/
structure AvgRow where
  metric : String
  average : String
  maxPct : String
  minPct : String
deriving DecidableEq, Repr

/-- The average-resource-usage summary table of app.py lines 369-386:
mean/max/min of cpu, memory and disk over the charted sequence, rendered
with :.2f. -/
def avg_stats_of (l : List LogRecord) : List AvgRow :=
  [ { metric := "CPU"
      average := formatTwoDecimal (listMean (l.map (fun r => r.cpu)))
      maxPct := formatTwoDecimal (listMax (l.map (fun r => r.cpu)))
      minPct := formatTwoDecimal (listMin (l.map (fun r => r.cpu))) }
  , { metric := "Memory"
      average := formatTwoDecimal (listMean (l.map (fun r => r.memory)))
      maxPct := formatTwoDecimal (listMax (l.map (fun r => r.memory)))
      minPct := formatTwoDecimal (listMin (l.map (fun r => r.memory))) }
  , { metric := "Disk"
      average := formatTwoDecimal (listMean (l.map (fun r => r.disk)))
      maxPct := formatTwoDecimal (listMax (l.map (fun r => r.disk)))
      minPct := formatTwoDecimal (listMin (l.map (fun r => r.disk))) } ]

/-- The two summary tables of app.py lines 364-397. -/
structure SummaryTables where
  avg_stats : List AvgRow
  ping_summary : List (String × Nat × String)
deriving DecidableEq, Repr

/-- The data handed to presentation by one successful dashboard render
(app.py lines 229-399): the statistics snapshot, the formatted logs table,
the two chart projections and the two summary tables.  When the filtered
sequence is empty the page shows only the no-data warning and returns
early (lines 312-314), leaving table, charts and summaries absent. -/
structure DashboardView where
  stats : StatisticsSnapshot
  no_data_message : Option String
  formatted_table : List FormattedRow
  resource_series : List (String × ℚ × ℚ × ℚ)
  ping_series : List (String × ℚ)
  summary_tables : Option SummaryTables
deriving DecidableEq, Repr

/-- The filtered logs queried by dashboard_page (app.py lines 292-296):
ping_filter is passed through unless it is "All", cpu_threshold unless it
is 0, both mapped to None otherwise. -/
def dashboard_df (ping_filter : String) (date_filter : Option (String × String))
    (cpu_threshold : Nat) (db : List LogRecord) : List LogRecord :=
  get_system_logs (if ping_filter == "All" then none else some ping_filter)
    date_filter
    (if 0 < cpu_threshold then some (cpu_threshold : ℚ) else none) db

/-- The view-assembly of dashboard_page after the data has been fetched
(app.py lines 298-399): early no-data return on an empty filtered
sequence, otherwise the first num_records formatted rows, the chart
projections over the sequence re-sorted ascending by id, and the two
summary tables. -/
def render_data (stats : StatisticsSnapshot) (df : List LogRecord)
    (num_records : Nat) : DashboardView :=
  if df.isEmpty then
    { stats := stats
      no_data_message := some ("No data available matching the current filters.")
      formatted_table := []
      resource_series := []
      ping_series := []
      summary_tables := none }
  else
    let chart_df := sortByIdAsc df
    { stats := stats
      no_data_message := none
      formatted_table := (df.take num_records).map formatRow
      resource_series := chart_df.map (fun r => (r.timestamp, r.cpu, r.memory, r.disk))
      ping_series := (chart_df.filter (fun r => decide (0 < r.ping_ms))).map
        (fun r => (r.timestamp, r.ping_ms))
      summary_tables := some
        { avg_stats := avg_stats_of chart_df
          ping_summary := ping_summary_of chart_df } }

/-- One full successful dashboard assembly over the raw tables. -/
def assemble_dashboard (ping_filter : String) (date_filter : Option (String × String))
    (cpu_threshold : Nat) (num_records : Nat)
    (db : List LogRecord) (alerts : List AlertRecord) : DashboardView :=
  render_data (get_statistics db alerts)
    (dashboard_df ping_filter date_filter cpu_threshold db) num_records

/-- The persisted store as seen through sqlite3.connect: a table is None
when the database file or the table itself is missing or malformed, in
which case every query against it raises. -/
structure Store where
  system_log : Option (List LogRecord)
  alerts_log : Option (List AlertRecord)
deriving DecidableEq, Repr

/-- Fallible log query.  Modelled from the spec: the raising behaviour of
the sqlite3/pandas layer under a missing or malformed store (spec 4.1 and
7: fetch_logs fails with StoreUnavailable) is library behaviour not
present in the repository source; the query itself is get_system_logs. -/
def fetch_logs (store : Store) (ping_filter : Option String)
    (date_filter : Option (String × String)) (cpu_threshold : Option ℚ) :
    Except String (List LogRecord) :=
  match store.system_log with
  | some db => .ok (get_system_logs ping_filter date_filter cpu_threshold db)
  | none => .error "StoreUnavailable"

/-- Fallible alerts query.  Modelled from the spec: raising behaviour as in
fetch_logs; the query itself is get_alerts_log. -/
def fetch_alerts (store : Store) : Except String (List AlertRecord) :=
  match store.alerts_log with
  | some alerts => .ok (get_alerts_log alerts)
  | none => .error "StoreUnavailable"

/-- Fallible statistics query.  Modelled from the spec: raising behaviour
as in fetch_logs; get_statistics reads both tables. -/
def fetch_statistics (store : Store) : Except String StatisticsSnapshot :=
  match store.system_log, store.alerts_log with
  | some db, some alerts => .ok (get_statistics db alerts)
  | _, _ => .error "StoreUnavailable"

/-- The outcome of one dashboard render cycle: either the assembled view,
or the degraded error view produced by the exception handler of app.py
lines 401-403. -/
inductive RenderResult
  | errorView (msg : String) (hint : String)
  | page (v : DashboardView)
deriving DecidableEq, Repr

/-- dashboard_page (app.py lines 195-403): fetches statistics, alerts and
the filtered logs inside one try block; any store failure is caught and
surfaced as the degraded error view, never propagated. -/
def dashboard_page (ping_filter : String) (date_filter : Option (String × String))
    (cpu_threshold : Nat) (num_records : Nat) (store : Store) : RenderResult :=
  match fetch_statistics store, fetch_alerts store,
      fetch_logs store (if ping_filter == "All" then none else some ping_filter)
        date_filter (if 0 < cpu_threshold then some (cpu_threshold : ℚ) else none) with
  | .ok stats, .ok _alerts, .ok df => .page (render_data stats df num_records)
  | _, _, _ => .errorView "Error loading data"
      "Make sure log.db exists in the same directory. Run your logger script first."

/-- One cached value.  Modelled from the spec: the query cache of the
dashboard is st.cache_data, Streamlit library code not present in the
repository; spec 4.3 describes it as get_or_compute / invalidate_all
keyed storage with per-entry store time. -/
structure CacheEntry (α : Type) where
  key : String
  storedAt : Nat
  value : α

/-- The process-local query cache.  Modelled from the spec (4.3). -/
structure QueryCache (α : Type) where
  entries : List (CacheEntry α)

/-- The default time-to-live: app.py uses ttl=10 on every cached query
(lines 120, 148, 157). -/
def default_ttl : Nat := 10

/-- get_or_compute.  Modelled from the spec (4.3): return the stored value
for the key when it was computed within the last ttl seconds, otherwise
invoke the compute function and store its result with the current time.
The middle component of the result records whether the compute function
was invoked. -/
def get_or_compute {α : Type} (c : QueryCache α) (now : Nat) (key : String)
    (ttl : Nat) (compute : Unit → α) : α × Bool × QueryCache α :=
  match c.entries.find? (fun e => e.key == key) with
  | some e =>
    if now - e.storedAt ≤ ttl then (e.value, false, c)
    else
      let v := compute ()
      (v, true, ⟨⟨key, now, v⟩ :: c.entries.filter (fun e2 => !(e2.key == key))⟩)
  | none =>
    let v := compute ()
    (v, true, ⟨⟨key, now, v⟩ :: c.entries⟩)

/-- invalidate_all.  Modelled from the spec (4.3): st.cache_data.clear()
drops every cached entry regardless of age (app.py lines 460-462). -/
def invalidate_all {α : Type} (_c : QueryCache α) : QueryCache α := ⟨[]⟩


instance : IsTotal LogRecord (fun a b => b.id ≤ a.id) :=
  ⟨fun a b => Nat.le_total b.id a.id⟩

instance : IsTrans LogRecord (fun a b => b.id ≤ a.id) :=
  ⟨fun _ _ _ h1 h2 => Nat.le_trans h2 h1⟩

instance : IsTotal LogRecord (fun a b => a.id ≤ b.id) :=
  ⟨fun a b => Nat.le_total a.id b.id⟩

instance : IsTrans LogRecord (fun a b => a.id ≤ b.id) :=
  ⟨fun _ _ _ h1 h2 => Nat.le_trans h1 h2⟩

lemma sortByIdDesc_perm (l : List LogRecord) : (sortByIdDesc l).Perm l :=
  List.perm_insertionSort _ l

lemma sortByIdDesc_sorted (l : List LogRecord) :
    (sortByIdDesc l).Pairwise (fun a b => b.id ≤ a.id) :=
  List.sorted_insertionSort _ l

lemma sortByIdAsc_perm (l : List LogRecord) : (sortByIdAsc l).Perm l :=
  List.perm_insertionSort _ l

lemma sortByIdAsc_sorted (l : List LogRecord) :
    (sortByIdAsc l).Pairwise (fun a b => a.id ≤ b.id) :=
  List.sorted_insertionSort _ l

lemma mem_get_system_logs {pf : Option String} {dff : Option (String × String)}
    {ct : Option ℚ} {db : List LogRecord} {r : LogRecord} :
    r ∈ get_system_logs pf dff ct db ↔ r ∈ db ∧ rowMatches pf dff ct r = true := by
  unfold get_system_logs
  rw [(sortByIdDesc_perm _).mem_iff, List.mem_filter]

/-- C1: every row returned by get_system_logs satisfies each active filter
predicate, membership in the result is exactly the logical AND of the three
predicates over the table rows, with no active filter the result is a
permutation of the full system_log table, and in every case the result is
ordered by id descending. -/
theorem fetch_logs_correct (pf : Option String) (dff : Option (String × String))
    (ct : Option ℚ) (db : List LogRecord) :
    (∀ r : LogRecord, r ∈ get_system_logs pf dff ct db ↔
      r ∈ db ∧ pingPred pf r = true ∧ datePred dff r = true ∧ cpuPred ct r = true)
    ∧ (get_system_logs pf dff ct db).Pairwise (fun a b => b.id ≤ a.id)
    ∧ (get_system_logs none none none db).Perm db := by
  refine ⟨fun r => ?_, sortByIdDesc_sorted _, ?_⟩
  · rw [mem_get_system_logs]
    simp [rowMatches, Bool.and_eq_true, and_assoc]
  · have hfull : db.filter (rowMatches none none none) = db :=
      List.filter_eq_self.mpr (fun a _ => rfl)
    unfold get_system_logs
    rw [hfull]
    exact sortByIdDesc_perm db

/-- C10: get_system_logs treats the literal ping filter "All" exactly like
None: no restriction is placed on ping_status. -/
theorem ping_filter_all_is_none (dff : Option (String × String)) (ct : Option ℚ)
    (db : List LogRecord) :
    get_system_logs (some "All") dff ct db = get_system_logs none dff ct db := rfl

/-- C3 does not hold as stated: the alert count of the snapshot is the size
of the alerts_log table, which get_statistics reads independently of the
(empty) system_log table; with one alert row it is 1, not 0. -/
theorem get_statistics_empty_counterexample :
    (get_statistics [] [⟨1, "2024-01-01 00:00:00", "CPU", "cpu high"⟩]).alert_count ≠ 0 := by
  decide

/-- C3 (amended): on an empty log table get_statistics returns zero log
count, zero threshold violations, zero latest cpu/memory/disk/ping_ms,
latest ping_status "N/A", and an alert count equal to the number of rows of
the alerts_log table (in particular zero when that table is empty too); it
is a total function. -/
theorem get_statistics_empty (alerts : List AlertRecord) :
    get_statistics [] alerts =
      { log_count := 0
        alert_count := alerts.length
        threshold_violations := 0
        latest_cpu := 0
        latest_memory := 0
        latest_disk := 0
        latest_ping_status := "N/A"
        latest_ping_ms := 0 } := rfl

/-- Sample table for the C5 scenario: cpu values 70, 85, 90 with memory and
disk below their thresholds. -/
def cpuScenarioDb : List LogRecord :=
  [⟨1, "2024-01-01 00:00:00", 70, 50, 50, "UP", 10⟩,
   ⟨2, "2024-01-01 00:01:00", 85, 50, 50, "UP", 10⟩,
   ⟨3, "2024-01-01 00:02:00", 90, 50, 50, "UP", 10⟩]

lemma render_data_stats (s : StatisticsSnapshot) (df : List LogRecord) (n : Nat) :
    (render_data s df n).stats = s := by
  unfold render_data
  split <;> rfl

/-- C5: threshold_violations counts exactly the rows of the full system_log
table satisfying cpu>80 OR memory>85 OR disk>90; the snapshot carried by the
assembled dashboard does not depend on the active filters; and on rows with
cpu 70, 85, 90 (memory and disk below thresholds) the count is 2. -/
theorem threshold_violations_global (pf : String) (dff : Option (String × String))
    (ct n : Nat) (db : List LogRecord) (alerts : List AlertRecord) :
    (get_statistics db alerts).threshold_violations
      = db.countP (fun r => decide (80 < r.cpu) || decide (85 < r.memory) || decide (90 < r.disk))
    ∧ (assemble_dashboard pf dff ct n db alerts).stats = get_statistics db alerts
    ∧ (get_statistics cpuScenarioDb []).threshold_violations = 2 := by
  refine ⟨?_, render_data_stats _ _ _, by decide⟩
  rw [List.countP_eq_length_filter]
  rfl

lemma render_data_ne_empty (s : StatisticsSnapshot) (df : List LogRecord) (n : Nat)
    (h : df ≠ []) :
    render_data s df n =
      { stats := s
        no_data_message := none
        formatted_table := (df.take n).map formatRow
        resource_series := (sortByIdAsc df).map (fun r => (r.timestamp, r.cpu, r.memory, r.disk))
        ping_series := ((sortByIdAsc df).filter (fun r => decide (0 < r.ping_ms))).map
          (fun r => (r.timestamp, r.ping_ms))
        summary_tables := some
          { avg_stats := avg_stats_of (sortByIdAsc df)
            ping_summary := ping_summary_of (sortByIdAsc df) } } := by
  unfold render_data
  rw [if_neg]
  simpa using h

/-- C2: when the filtered sequence is empty, the dashboard still renders a
page (not the store-failure error view) whose formatted table and chart
series are empty and whose summary tables are absent, and it carries the
explicit no-data message distinguishing this state. -/
theorem empty_filter_no_data (pf : String) (dff : Option (String × String))
    (ct n : Nat) (db : List LogRecord) (alerts : List AlertRecord)
    (h : dashboard_df pf dff ct db = []) :
    dashboard_page pf dff ct n ⟨some db, some alerts⟩ =
      .page { stats := get_statistics db alerts
              no_data_message := some ("No data available matching the current filters.")
              formatted_table := []
              resource_series := []
              ping_series := []
              summary_tables := none } := by
  have hred : dashboard_page pf dff ct n ⟨some db, some alerts⟩
      = .page (render_data (get_statistics db alerts) (dashboard_df pf dff ct db) n) := rfl
  rw [hred, h]
  rfl

/-- Single-row table whose only row is removed by a cpu threshold of 90;
used to witness the empty-filter render. -/
def emptyFilterDb : List LogRecord :=
  [⟨1, "2024-01-01 00:00:00", 70, 50, 50, "UP", 10⟩]

theorem empty_filter_no_data_witness :
    dashboard_page "All" none 90 20 ⟨some emptyFilterDb, some []⟩ =
      .page { stats := get_statistics emptyFilterDb []
              no_data_message := some ("No data available matching the current filters.")
              formatted_table := []
              resource_series := []
              ping_series := []
              summary_tables := none } :=
  empty_filter_no_data "All" none 90 20 emptyFilterDb [] (by decide)

/-- C4: starting from a cache holding no entry for the key, a get_or_compute
call at time t1 invokes the compute function and stores its value; a second
call with the same key at most ttl seconds later returns that stored value
without invoking its compute function; a later call after the ttl has
elapsed invokes its compute function again; invalidate_all drops every
cached entry regardless of age, so the next call always recomputes; and the
ttl used by the dashboard queries is 10 seconds. -/
theorem cache_ttl {α : Type} (c : QueryCache α) (t1 t2 : Nat) (k : String)
    (ttl : Nat) (f g : Unit → α)
    (hmiss : c.entries.find? (fun e => e.key == k) = none) :
    (get_or_compute c t1 k ttl f).1 = f ()
    ∧ (get_or_compute c t1 k ttl f).2.1 = true
    ∧ (t2 - t1 ≤ ttl →
        get_or_compute (get_or_compute c t1 k ttl f).2.2 t2 k ttl g
          = (f (), false, (get_or_compute c t1 k ttl f).2.2))
    ∧ (ttl < t2 - t1 →
        (get_or_compute (get_or_compute c t1 k ttl f).2.2 t2 k ttl g).1 = g ()
        ∧ (get_or_compute (get_or_compute c t1 k ttl f).2.2 t2 k ttl g).2.1 = true)
    ∧ (∀ c2 : QueryCache α, (invalidate_all c2).entries = [])
    ∧ (∀ (c2 : QueryCache α) (t3 : Nat),
        (get_or_compute (invalidate_all c2) t3 k ttl g).2.1 = true)
    ∧ default_ttl = 10 := by
  have h1 : get_or_compute c t1 k ttl f
      = (f (), true, ⟨⟨k, t1, f ()⟩ :: c.entries⟩) := by
    unfold get_or_compute
    rw [hmiss]
  have hfind : (⟨⟨k, t1, f ()⟩ :: c.entries⟩ : QueryCache α).entries.find?
      (fun e => e.key == k) = some ⟨k, t1, f ()⟩ := by
    simp [List.find?]
  refine ⟨by rw [h1], by rw [h1], ?_, ?_, fun c2 => rfl, fun c2 t3 => rfl, rfl⟩
  · intro ht
    rw [h1]
    simp [get_or_compute, hfind, ht]
  · intro ht
    have hnot : ¬ (t2 - t1 ≤ ttl) := Nat.not_le.mpr ht
    rw [h1]
    simp [get_or_compute, hfind, hnot]

theorem cache_ttl_witness :
    get_or_compute (get_or_compute (⟨[]⟩ : QueryCache Nat) 0 "stats" 10 (fun _ => 41)).2.2
        5 "stats" 10 (fun _ => 42)
      = (41, false, (get_or_compute (⟨[]⟩ : QueryCache Nat) 0 "stats" 10 (fun _ => 41)).2.2) :=
  (cache_ttl (⟨[]⟩ : QueryCache Nat) 0 5 "stats" 10 (fun _ => 41) (fun _ => 42) rfl).2.2.1
    (by decide)

/-- C9: a missing or malformed system_log table makes every fetch_logs call
fail with StoreUnavailable, likewise fetch_alerts for alerts_log, and under
any such store failure the (total) dashboard render degrades to the error
view with the operator hint instead of propagating the failure. -/
theorem store_unavailable_degraded (pf : String) (dff : Option (String × String))
    (ct n : Nat) (store : Store)
    (h : store.system_log = none ∨ store.alerts_log = none) :
    (store.system_log = none →
      ∀ (pfo : Option String) (dfo : Option (String × String)) (cto : Option ℚ),
        fetch_logs store pfo dfo cto = .error "StoreUnavailable")
    ∧ (store.alerts_log = none → fetch_alerts store = .error "StoreUnavailable")
    ∧ dashboard_page pf dff ct n store
        = .errorView "Error loading data"
            "Make sure log.db exists in the same directory. Run your logger script first." := by
  obtain ⟨sl, al⟩ := store
  refine ⟨?_, ?_, ?_⟩
  · intro hsl pfo dfo cto
    simp only at hsl
    subst hsl
    rfl
  · intro hal
    simp only at hal
    subst hal
    rfl
  · rcases h with hsl | hal
    · simp only at hsl
      subst hsl
      cases al <;> rfl
    · simp only at hal
      subst hal
      cases sl <;> rfl

theorem store_unavailable_degraded_witness :
    dashboard_page "All" none 0 20 ⟨none, none⟩
      = .errorView "Error loading data"
          "Make sure log.db exists in the same directory. Run your logger script first." :=
  (store_unavailable_degraded "All" none 0 20 ⟨none, none⟩ (Or.inl rfl)).2.2

/-- Two-row sample table (one row with ping_ms 0) used to witness the
formatting and time-series theorems. -/
def sampleDb : List LogRecord :=
  [⟨1, "2024-01-01 00:00:00", 70, 50, 50, "UP", 10⟩,
   ⟨2, "2024-01-01 00:01:00", 85, 60, 55, "DOWN", 0⟩]

/-- C6: the formatted table consists of the first num_records rows of the
filtered sequence in its descending-id order, with cpu/memory/disk rendered
as one-decimal strings suffixed "%" and ping_ms as a one-decimal string
suffixed "ms", or "N/A" when it is not positive. -/
theorem formatted_table_spec (pf : String) (dff : Option (String × String))
    (ct n : Nat) (db : List LogRecord) (alerts : List AlertRecord)
    (h : dashboard_df pf dff ct db ≠ []) :
    (assemble_dashboard pf dff ct n db alerts).formatted_table
      = ((dashboard_df pf dff ct db).take n).map (fun r =>
          { id := r.id
            timestamp := r.timestamp
            cpu := formatOneDecimal r.cpu ++ "%"
            memory := formatOneDecimal r.memory ++ "%"
            disk := formatOneDecimal r.disk ++ "%"
            ping_status := r.ping_status
            ping_ms := if 0 < r.ping_ms then formatOneDecimal r.ping_ms ++ "ms" else "N/A" })
    ∧ (dashboard_df pf dff ct db).Pairwise (fun a b => b.id ≤ a.id) := by
  constructor
  · unfold assemble_dashboard
    rw [render_data_ne_empty _ _ _ h]
    rfl
  · exact sortByIdDesc_sorted _

theorem formatted_table_spec_witness :
    (assemble_dashboard "All" none 0 20 sampleDb []).formatted_table
      = ((dashboard_df "All" none 0 sampleDb).take 20).map (fun r =>
          { id := r.id
            timestamp := r.timestamp
            cpu := formatOneDecimal r.cpu ++ "%"
            memory := formatOneDecimal r.memory ++ "%"
            disk := formatOneDecimal r.disk ++ "%"
            ping_status := r.ping_status
            ping_ms := if 0 < r.ping_ms then formatOneDecimal r.ping_ms ++ "ms" else "N/A" }) :=
  (formatted_table_spec "All" none 0 20 sampleDb [] (by decide)).1

/-- C7: both chart projections are computed from the filtered sequence
re-sorted ascending by id: the resource series projects every row to
(timestamp, cpu, memory, disk), and the ping series projects exactly the
rows with positive ping_ms to (timestamp, ping_ms). -/
theorem time_series_spec (pf : String) (dff : Option (String × String))
    (ct n : Nat) (db : List LogRecord) (alerts : List AlertRecord)
    (h : dashboard_df pf dff ct db ≠ []) :
    ∃ l : List LogRecord,
      l.Perm (dashboard_df pf dff ct db)
      ∧ l.Pairwise (fun a b => a.id ≤ b.id)
      ∧ (assemble_dashboard pf dff ct n db alerts).resource_series
          = l.map (fun r => (r.timestamp, r.cpu, r.memory, r.disk))
      ∧ (assemble_dashboard pf dff ct n db alerts).ping_series
          = (l.filter (fun r => decide (0 < r.ping_ms))).map
              (fun r => (r.timestamp, r.ping_ms)) := by
  refine ⟨sortByIdAsc (dashboard_df pf dff ct db), sortByIdAsc_perm _,
    sortByIdAsc_sorted _, ?_, ?_⟩
  · unfold assemble_dashboard
    rw [render_data_ne_empty _ _ _ h]
  · unfold assemble_dashboard
    rw [render_data_ne_empty _ _ _ h]

theorem time_series_spec_witness :
    ∃ l : List LogRecord,
      l.Perm (dashboard_df "All" none 0 sampleDb)
      ∧ l.Pairwise (fun a b => a.id ≤ b.id)
      ∧ (assemble_dashboard "All" none 0 20 sampleDb []).resource_series
          = l.map (fun r => (r.timestamp, r.cpu, r.memory, r.disk))
      ∧ (assemble_dashboard "All" none 0 20 sampleDb []).ping_series
          = (l.filter (fun r => decide (0 < r.ping_ms))).map
              (fun r => (r.timestamp, r.ping_ms)) :=
  time_series_spec "All" none 0 20 sampleDb [] (by decide)

/-- The ping-status summary rows carried by a dashboard view ([] when the
summary tables are absent). -/
def summaryPing (v : DashboardView) : List (String × Nat × String) :=
  match v.summary_tables with
  | some t => t.ping_summary
  | none => []

/-- Three-row sample table whose ping_status values are UP, UP, DOWN; used
for the C8 scenario. -/
def pingScenarioDb : List LogRecord :=
  [⟨1, "2024-01-01 00:00:00", 70, 50, 50, "UP", 10⟩,
   ⟨2, "2024-01-01 00:01:00", 70, 50, 50, "UP", 12⟩,
   ⟨3, "2024-01-01 00:02:00", 70, 50, 50, "DOWN", 0⟩]

lemma mem_value_counts {l : List String} {p : String × Nat} :
    p ∈ value_counts l ↔ p ∈ l.dedup.map (fun s => (s, l.count s)) :=
  (List.perm_insertionSort _ _).mem_iff

/-- C8: over a non-empty filtered sequence the summary tables are present,
every row of the ping-status table pairs a status with its count in the
filtered sequence and with the percentage of the sequence length (not of
the global table), every status occurring in the sequence appears, and on
the sequence UP, UP, DOWN the table is UP 2 (66.7 percent) and DOWN 1
(33.3 percent). -/
theorem ping_summary_spec (pf : String) (dff : Option (String × String))
    (ct n : Nat) (db : List LogRecord) (alerts : List AlertRecord)
    (h : dashboard_df pf dff ct db ≠ []) :
    (assemble_dashboard pf dff ct n db alerts).summary_tables ≠ none
    ∧ (∀ s c p, (s, c, p) ∈ summaryPing (assemble_dashboard pf dff ct n db alerts) →
        c = ((dashboard_df pf dff ct db).map (fun r => r.ping_status)).count s
        ∧ p = pctString c (dashboard_df pf dff ct db).length)
    ∧ (∀ s, s ∈ (dashboard_df pf dff ct db).map (fun r => r.ping_status) →
        ∃ p, (s, ((dashboard_df pf dff ct db).map (fun r => r.ping_status)).count s, p)
          ∈ summaryPing (assemble_dashboard pf dff ct n db alerts))
    ∧ summaryPing (assemble_dashboard "All" none 0 20 pingScenarioDb [])
        = [("UP", 2, "66.7%"), ("DOWN", 1, "33.3%")] := by
  have hperm : (sortByIdAsc (dashboard_df pf dff ct db)).Perm (dashboard_df pf dff ct db) :=
    sortByIdAsc_perm _
  have hmap : ((sortByIdAsc (dashboard_df pf dff ct db)).map (fun r => r.ping_status)).Perm
      ((dashboard_df pf dff ct db).map (fun r => r.ping_status)) :=
    hperm.map _
  have hcount : ∀ s, ((sortByIdAsc (dashboard_df pf dff ct db)).map
      (fun r => r.ping_status)).count s
      = ((dashboard_df pf dff ct db).map (fun r => r.ping_status)).count s :=
    fun s => hmap.count_eq s
  have hlen : (sortByIdAsc (dashboard_df pf dff ct db)).length
      = (dashboard_df pf dff ct db).length := hperm.length_eq
  have hsum : summaryPing (assemble_dashboard pf dff ct n db alerts)
      = ping_summary_of (sortByIdAsc (dashboard_df pf dff ct db)) := by
    unfold assemble_dashboard summaryPing
    rw [render_data_ne_empty _ _ _ h]
  refine ⟨?_, ?_, ?_, by decide⟩
  · unfold assemble_dashboard
    rw [render_data_ne_empty _ _ _ h]
    simp
  · intro s c p hp
    rw [hsum] at hp
    unfold ping_summary_of at hp
    obtain ⟨q, hq, heq⟩ := List.mem_map.mp hp
    rw [Prod.ext_iff, Prod.ext_iff] at heq
    obtain ⟨h1, h2, h3⟩ := heq
    dsimp only at h1 h2 h3
    rw [mem_value_counts] at hq
    obtain ⟨s2, _, hq2⟩ := List.mem_map.mp hq
    have hq1 : q.1 = s2 := by rw [← hq2]
    have hq2c : q.2 = ((sortByIdAsc (dashboard_df pf dff ct db)).map
        (fun r => r.ping_status)).count s2 := by rw [← hq2]
    constructor
    · rw [← h2, hq2c, ← hq1, h1, hcount]
    · rw [← h3, ← h2, hlen]
  · intro s hs
    have hs2 : s ∈ (sortByIdAsc (dashboard_df pf dff ct db)).map (fun r => r.ping_status) :=
      hmap.mem_iff.mpr hs
    have hd : s ∈ ((sortByIdAsc (dashboard_df pf dff ct db)).map
        (fun r => r.ping_status)).dedup := List.mem_dedup.mpr hs2
    refine ⟨pctString (((dashboard_df pf dff ct db).map (fun r => r.ping_status)).count s)
      (dashboard_df pf dff ct db).length, ?_⟩
    rw [hsum, ← hcount s, ← hlen]
    unfold ping_summary_of
    exact List.mem_map.mpr
      ⟨(s, ((sortByIdAsc (dashboard_df pf dff ct db)).map (fun r => r.ping_status)).count s),
        mem_value_counts.mpr (List.mem_map.mpr ⟨s, hd, rfl⟩), rfl⟩

theorem ping_summary_spec_witness :
    summaryPing (assemble_dashboard "All" none 0 20 pingScenarioDb [])
      = [("UP", 2, "66.7%"), ("DOWN", 1, "33.3%")] :=
  (ping_summary_spec "All" none 0 20 pingScenarioDb [] (by decide)).2.2.2
